import Mathlib

/-!
Verification development for the hb-velux-tools repository: a client library
for the Velux Integra KLF 200 gateway.  The definitions below are shallow
embeddings of the JavaScript sources: byte buffers are `List Nat` (each
element intended `< 256`), fallible code returns `Option` or `Except String`,
and machine arithmetic is `Nat`/`Int` with explicit `%` where overflow
matters.  Each definition carries a comment naming the source function it
embeds.
-/

namespace Velux

/-! ## SLIP codec, from lib/slip.js -/

def slipEND : Nat := 0xC0
def slipESC : Nat := 0xDB
def slipESC_END : Nat := 0xDC
def slipESC_ESC : Nat := 0xDD

/-- Body of the `encode` loop of lib/slip.js: each END byte becomes
ESC,ESC_END; each ESC byte becomes ESC,ESC_ESC; others pass through. -/
def slipStuff : List Nat → List Nat
  | [] => []
  | b :: rest =>
    if b = slipEND then slipESC :: slipESC_END :: slipStuff rest
    else if b = slipESC then slipESC :: slipESC_ESC :: slipStuff rest
    else b :: slipStuff rest

/-- The `encode` function of lib/slip.js: END, stuffed bytes, END. -/
def slipEncode (buf : List Nat) : List Nat :=
  slipEND :: slipStuff buf ++ [slipEND]

/-- Interior loop of the `decode` function of lib/slip.js, for the bytes
strictly between the two END delimiters.  The output buffer `out` is
created with `Buffer.allocUnsafe(len - 2)`, so its initial contents are
arbitrary; `junk o` models the uninitialised byte at output position `o`.
On an escape pair the source writes the un-escaped byte to `buf[o]` (the
input buffer) rather than to `out[o]`, so output position `o` keeps its
uninitialised value `junk o`; on an ordinary byte the source writes
`out[o] = buf[i]`.  An interior END byte, or an ESC not followed by
ESC_END/ESC_ESC (including an ESC directly before the closing END, whose
lookahead reads that closing END), throws. -/
def slipDecodeLoop (junk : Nat → Nat) : Nat → List Nat → Option (List Nat)
  | _, [] => some []
  | o, c :: rest =>
    if c = slipEND then none
    else if c = slipESC then
      match rest with
      | [] => none
      | d :: rest' =>
        if d = slipESC_END ∨ d = slipESC_ESC then
          (slipDecodeLoop junk (o + 1) rest').map (fun l => junk o :: l)
        else none
    else (slipDecodeLoop junk (o + 1) rest).map (fun l => c :: l)

/-- The `decode` function of lib/slip.js.  Requires length ≥ 2 and END at
both ends, then runs the interior loop on the bytes in between and returns
`out.subarray(0, o)`.  `junk` models the contents `Buffer.allocUnsafe`
gave the output buffer (see `slipDecodeLoop`). -/
def slipDecode (junk : Nat → Nat) (buf : List Nat) : Option (List Nat) :=
  if buf.length < 2 ∨ buf.head? ≠ some slipEND ∨ buf.getLast? ≠ some slipEND then
    none
  else
    slipDecodeLoop junk 0 (buf.drop 1).dropLast

/-! ## Wire frame codec, from `request` and `#receive` of lib/VeluxClient.js -/

/-- XOR checksum loop of `request`: `for i: checksum ^= buf[i]`. -/
def xorList (l : List Nat) : Nat :=
  l.foldl Nat.xor 0

/-- Frame construction in `request` (lib/VeluxClient.js): a zero-filled
buffer of `len + 5` bytes; byte 0 the protocol id 0, byte 1 `len + 3`,
bytes 2–3 the command id big-endian, bytes 4.. the payload; the checksum
is XOR over the whole buffer (whose last byte is still 0 at that point)
and is then written into the last byte. -/
def frameEncode (cmd : Nat) (data : List Nat) : List Nat :=
  let len := data.length
  let buf := [0, len + 3, cmd / 0x100 % 0x100, cmd % 0x100] ++ data ++ [0]
  let checksum := xorList buf
  buf.dropLast ++ [checksum]

/-- Command-id extraction in `#receive`: `buf.readUInt16BE(2)`. -/
def frameCmd (buf : List Nat) : Option Nat :=
  match buf[2]?, buf[3]? with
  | some hi, some lo => some (hi * 0x100 + lo)
  | _, _ => none

/-- Payload extraction in `#receive`: `buf.subarray(4, -1)`. -/
def framePayload (buf : List Nat) : List Nat :=
  (buf.drop 4).dropLast

/-- Checksum test in `#receive`: XOR over all bytes but the last equals
the last byte. -/
def frameChecksumOk (buf : List Nat) : Prop :=
  buf.getLast? = some (xorList buf.dropLast)

/-! ## Buffer read/write helpers

`Buffer.readUInt8` / `readUInt16BE` throw a RangeError when the offset is
out of range, modelled as `Except.error`; `Buffer.writeUInt8` /
`writeUInt16BE` write a byte (two bytes big-endian) at an offset of a
zero-filled buffer. -/

def readU8 (data : List Nat) (off : Nat) : Except String Nat :=
  match data[off]? with
  | some b => Except.ok b
  | none => Except.error ("offset out of range")

def readU16BE (data : List Nat) (off : Nat) : Except String Nat :=
  match data[off]?, data[off + 1]? with
  | some hi, some lo => Except.ok (hi * 0x100 + lo)
  | _, _ => Except.error ("offset out of range")

def writeU8 (buf : List Nat) (value off : Nat) : List Nat :=
  buf.set off (value % 0x100)

def writeU16BE (buf : List Nat) (value off : Nat) : List Nat :=
  (buf.set off (value / 0x100 % 0x100)).set (off + 1) (value % 0x100)

/-- The `checkData` helper of lib/VeluxApi.js: error unless the payload
has exactly the expected length. -/
def checkData (data : List Nat) (len : Nat) : Except String Unit :=
  if data.length = len then Except.ok () else Except.error ("invalid data length")

/-! ## Position codec, from `decodePosition` / `encodePosition` of
lib/VeluxApi.js -/

/-- Result of `decodePosition`: a JavaScript number or string. -/
inductive PosValue where
  | num (n : Nat)
  | str (s : String)
deriving DecidableEq, Repr

/-- Parameter accepted by `encodePosition`: a JavaScript number or
string. -/
inductive PosParam where
  | num (n : Nat)
  | str (s : String)
deriving DecidableEq, Repr

/-- The `decodePosition` function of lib/VeluxApi.js.  `Math.round` on a
non-negative value is `fun x => (2 * x + d) / (2 * d)` in exact
arithmetic, i.e. `(v + 0x100) / 0x200` for `round(v / 0x0200)` and
`(d + 5) / 10` for `round(d / 10)`. -/
def decodePosition (position : Nat) : PosValue :=
  if position = 0xD100 then PosValue.str ("target")
  else if position = 0xD200 then PosValue.str ("current")
  else if position = 0xD300 then PosValue.str ("default")
  else if position = 0xD400 then PosValue.str ("ignore")
  else if position = 0xF7FF then PosValue.str ("unknown")
  else if position ≤ 0xC800 then PosValue.num ((position + 0x100) / 0x200)
  else PosValue.str ("relative " ++
    toString ((((position - 0xC800 + 5) / 10 : Nat) : Int) - 100))

/-- The `encodePosition` function of lib/VeluxApi.js.  A number is
multiplied by 0x0200; the four named sentinels map to their codes; any
other string multiplied by 0x0200 gives NaN in JavaScript, modelled as
`none`. -/
def encodePosition : PosParam → Option Nat
  | PosParam.num n => some (n * 0x200)
  | PosParam.str s =>
    if s = ("target") then some 0xD100
    else if s = ("current") then some 0xD200
    else if s = ("default") then some 0xD300
    else if s = ("ignore") then some 0xD400
    else none

/-! ## GW_GET_VERSION_CFM decoder, from lib/VeluxApi.js -/

/-- Shape of the object returned by `GW_GET_VERSION_CFM.decode`. -/
structure VersionInfo where
  softwareVersion : String
  hardwareVersion : Nat
  productGroup : Nat
  productType : Nat
deriving DecidableEq, Repr

/-- The `GW_GET_VERSION_CFM.decode` function of lib/VeluxApi.js: after
`checkData(data, 9)` the loop `for (let i = 1; i < 5; i++)` pushes bytes
1–4 into `sw` (the original `for (let i = 0; i < 6; i++)` is commented
out in the source), joins them with dots, and reads bytes 6, 7, 8. -/
def decodeGwGetVersionCfm (data : List Nat) : Except String VersionInfo := do
  _ ← checkData data 9
  let b1 ← readU8 data 1
  let b2 ← readU8 data 2
  let b3 ← readU8 data 3
  let b4 ← readU8 data 4
  let hw ← readU8 data 6
  let pg ← readU8 data 7
  let pt ← readU8 data 8
  return { softwareVersion :=
             String.intercalate (".") [toString b1, toString b2, toString b3, toString b4],
           hardwareVersion := hw, productGroup := pg, productType := pt }

/-! ## Session-id assignment and GW_COMMAND_SEND_REQ encoder -/

/-- The statement `params.sessionId = ++this._sessionId % 0xFFFF` in
`request` (VeluxClient.js): the stored counter is incremented without
wrap-around. -/
def nextSessionCounter (s : Nat) : Nat := s + 1

/-- The session id stored on `params` by the same statement: the
incremented counter reduced modulo 0xFFFF (not 0x10000). -/
def assignedSessionId (s : Nat) : Nat := (s + 1) % 0xFFFF

/-- Loop of `GW_COMMAND_SEND_REQ.encode` writing the node ids at offsets
42, 43, … -/
def writeNodeIds (buf : List Nat) : List Nat → Nat → List Nat
  | [], _ => buf
  | n :: rest, off => writeNodeIds (writeU8 buf n off) rest (off + 1)

/-- The `GW_COMMAND_SEND_REQ.encode` function of lib/VeluxApi.js: a
zero-filled 66-byte buffer with the session id big-endian at offset 0,
command originator 1 at offset 2, priority level 3 at offset 3, the
encoded position big-endian at offset 7, the node count at offset 41 and
the node ids from offset 42.  A position that encodes to NaN makes
`writeUInt16BE` throw, modelled as `none`. -/
def encodeGwCommandSendReq (sessionId : Nat) (position : PosParam)
    (nodeIds : List Nat) : Option (List Nat) :=
  match encodePosition position with
  | none => none
  | some pos =>
    let data := List.replicate 66 0
    let data := writeU16BE data sessionId 0
    let data := writeU8 data 1 2
    let data := writeU8 data 3 3
    let data := writeU16BE data pos 7
    let data := writeU8 data nodeIds.length 41
    some (writeNodeIds data nodeIds 42)

/-! ## Shared payload decoders of lib/VeluxApi.js -/

/-- The `decodeStatus` helper: one status byte, non-zero throws the given
message. -/
def decodeStatus (data : List Nat) (message : String) : Except String Unit := do
  _ ← checkData data 1
  let status ← readU8 data 0
  if status ≠ 0 then Except.error message else Except.ok ()

/-- The `decodeSessionStatus` helper: 16-bit session id, then one status
byte; status 0 throws, otherwise the session id object is returned. -/
def decodeSessionStatus (data : List Nat) : Except String Nat := do
  _ ← checkData data 3
  let sessionId ← readU16BE data 0
  let status ← readU8 data 2
  if status = 0 then Except.error ("request failed") else Except.ok sessionId

/-- Shape of the object returned by `decodePowerState`. -/
structure PowerState where
  powerSaveMode : Nat
  ioMembership : Nat
  rfSupport : Nat
  turnaroundTime : Nat
deriving DecidableEq, Repr

/-- The `decodePowerState` helper of lib/VeluxApi.js. -/
def decodePowerState (powerState : Nat) : PowerState :=
  { powerSaveMode := powerState &&& 0x03,
    ioMembership := (powerState &&& 0x04) >>> 2,
    rfSupport := (powerState &&& 0x08) >>> 3,
    turnaroundTime := (powerState &&& 0xC0) >>> 6 }

/-- Model of the external `toHexString(value, width)` helper of
hb-lib-tools (not part of this repository): `width` upper-case hex
digits.  Only used for fallback labels of unknown ids. -/
def hexDigit (n : Nat) : Char :=
  if n < 10 then Char.ofNat (48 + n) else Char.ofNat (55 + n)

def hexChars (value : Nat) : Nat → List Char
  | 0 => []
  | w + 1 => hexChars (value / 16) w ++ [hexDigit (value % 16)]

def toHexString (value width : Nat) : String :=
  String.mk (hexChars value width)

/-- The `decodeManufacturerId` map of lib/VeluxApi.js. -/
def decodeManufacturerId (manufacturerId : Nat) : String :=
  if manufacturerId = 1 then ("VELUX")
  else if manufacturerId = 2 then ("Somfy")
  else if manufacturerId = 3 then ("Honeywell")
  else if manufacturerId = 4 then ("Hörmann")
  else if manufacturerId = 5 then ("ASSA ABLOY")
  else if manufacturerId = 6 then ("Niko")
  else if manufacturerId = 7 then ("WINDOW MASTER")
  else if manufacturerId = 8 then ("Renson")
  else if manufacturerId = 9 then ("CIAT")
  else if manufacturerId = 10 then ("Secuyou")
  else if manufacturerId = 11 then ("OVERKIZ")
  else if manufacturerId = 12 then ("Atlantic Group")
  else ("0x" ++ toHexString manufacturerId 2)

/-- The `decodeActuatorType` map of lib/VeluxApi.js. -/
def decodeActuatorType (actuatorType : Nat) : String :=
  if actuatorType = 0x0040 then ("Interior Venetian Blind")
  else if actuatorType = 0x0080 then ("Roller Shutter")
  else if actuatorType = 0x0081 then ("Roller Shutter with Adjustable Slats")
  else if actuatorType = 0x0082 then ("Roller Shutter with Projection")
  else if actuatorType = 0x00C0 then ("Vertical Exterior Awning")
  else if actuatorType = 0x0100 then ("Window Opener")
  else if actuatorType = 0x0101 then ("Window Opener with Rain Sensor")
  else if actuatorType = 0x0140 then ("Garage Door Opener")
  else if actuatorType = 0x017A then ("Garage Door Opener")
  else if actuatorType = 0x0180 then ("Light")
  else if actuatorType = 0x01BA then ("On/Off Light")
  else if actuatorType = 0x01C0 then ("Gate Opener")
  else if actuatorType = 0x01FA then ("Gate Opener")
  else if actuatorType = 0x0240 then ("Door Lock")
  else if actuatorType = 0x0241 then ("Window Lock")
  else if actuatorType = 0x0280 then ("Vertical Interior Blinds")
  else if actuatorType = 0x0340 then ("Dual Roller Shutter")
  else if actuatorType = 0x03C0 then ("On/Off Switch")
  else if actuatorType = 0x0400 then ("Horizontal Awning")
  else if actuatorType = 0x0440 then ("Exterior Venetian Blind")
  else if actuatorType = 0x0480 then ("Louver Blind")
  else if actuatorType = 0x04C0 then ("Curtain Track")
  else if actuatorType = 0x0500 then ("Ventilation Point")
  else if actuatorType = 0x0501 then ("Air Inlet")
  else if actuatorType = 0x0502 then ("Air Transfer")
  else if actuatorType = 0x0503 then ("Air Outlet")
  else if actuatorType = 0x0540 then ("Exterior Heating")
  else if actuatorType = 0x057A then ("Exterior Heating")
  else if actuatorType = 0x0600 then ("Swinging Shutters")
  else if actuatorType = 0x0601 then ("Swinging Shutter")
  else ("0x" ++ toHexString actuatorType 4)

/-! ## GW_CS_GET_SYSTEMTABLE_DATA_NTF decoder, from lib/VeluxApi.js -/

/-- One entry of the system table as built by the decoder. -/
structure SysEntry where
  nodeId : Nat
  actuatorType : Nat
  powerState : PowerState
  manufacturer : String
  model : String
deriving DecidableEq, Repr

/-- The entry loop of `GW_CS_GET_SYSTEMTABLE_DATA_NTF.decode`
(`for (let i = 0; i < nEntries; i++)`).  The actuator type is read with
`data.readUInt16BE(11 * 1 + 5)` — the fixed offset 16 that appears in the
source, not `11 * i + 5`. -/
def decodeSysLoop (data : List Nat) : Nat → Nat → Except String (List SysEntry)
  | _, 0 => Except.ok []
  | i, k + 1 => do
    let nodeId ← readU8 data (11 * i + 1)
    let actuatorType ← readU16BE data (11 * 1 + 5)
    let ps ← readU8 data (11 * i + 7)
    let mf ← readU8 data (11 * i + 8)
    let rest ← decodeSysLoop data (i + 1) k
    return { nodeId := nodeId, actuatorType := actuatorType,
             powerState := decodePowerState ps,
             manufacturer := decodeManufacturerId mf,
             model := decodeActuatorType actuatorType } :: rest

/-- The `GW_CS_GET_SYSTEMTABLE_DATA_NTF.decode` function of
lib/VeluxApi.js: first byte is the entry count, `checkData` expects
`2 + nEntries * 11` bytes, the entries are decoded in order and appended
to the session accumulator, and the remaining-entries byte after the last
entry terminates the session when zero.  The returned Bool models
`session.emit('done')`. -/
def decodeGwCsGetSystemtableDataNtf (data : List Nat) :
    Except String (List SysEntry × Bool) := do
  let nEntries ← readU8 data 0
  _ ← checkData data (2 + nEntries * 11)
  let entries ← decodeSysLoop data 0 nEntries
  let remaining ← readU8 data (nEntries * 11 + 1)
  return (entries, remaining = 0)

/-! ## Command registry, from the `commands` catalogue of lib/VeluxApi.js

The subset of the catalogue exercised by the claims below; ids, the
request linkage `req` and the `ntf` / `session` / `sessionDone` flags are
copied from the source.  Payload decoders are wired in for the commands
the claims evaluate; request encoders are modelled as standalone
functions (`encodeGwCommandSendReq`, `encodeGwPasswordEnterReq`). -/

/-- Decoded payload shapes produced by the modelled decoders.  Of these,
only the session-status objects carry a `sessionId` field, and none
carries a `nodeId` field. -/
inductive Payload where
  | undef
  | version (v : VersionInfo)
  | sessionRef (sessionId : Nat)
  | sysEntries (entries : List SysEntry)
deriving DecidableEq, Repr

/-- The `payload?.sessionId` access in `#receive`. -/
def payloadSessionId : Payload → Option Nat
  | Payload.sessionRef sid => some sid
  | _ => none

/-- The `payload.nodeId` access in `#receive`: none of the modelled
payload shapes carries a `nodeId` field. -/
def payloadNodeId : Payload → Option Nat := fun _ => none

/-- Model of the JavaScript `cmdName.endsWith(suffix)` test used in
`#receive`: the character suffix check. -/
def strEndsWith (s suffix : String) : Bool :=
  decide (suffix.data.length ≤ s.data.length) &&
  decide (s.data.drop (s.data.length - suffix.data.length) = suffix.data)

/-- One command descriptor of the catalogue. -/
structure ApiCommand where
  id : Nat
  req : Option Nat := none
  ntf : Bool := false
  session : Bool := false
  sessionDone : Bool := false
  decode : Option (List Nat → Except String Payload) := none

def GW_GET_VERSION_REQ : ApiCommand := { id := 0x0008 }

def GW_GET_VERSION_CFM : ApiCommand :=
  { id := 0x0009, req := some 0x0008,
    decode := some fun data => (decodeGwGetVersionCfm data).map Payload.version }

def GW_PASSWORD_ENTER_REQ : ApiCommand := { id := 0x3000 }

def GW_PASSWORD_ENTER_CFM : ApiCommand :=
  { id := 0x3001, req := some 0x3000,
    decode := some fun data =>
      (decodeStatus data ("invalid password")).map (fun _ => Payload.undef) }

def GW_CS_GET_SYSTEMTABLE_DATA_REQ : ApiCommand := { id := 0x0100, ntf := true }

def GW_CS_GET_SYSTEMTABLE_DATA_CFM : ApiCommand := { id := 0x0101, req := some 0x0100 }

/-- The system-table notification; the session side effects
(`session.result.push`, `session.emit('done')`) are carried by the entry
list and the Bool of `decodeGwCsGetSystemtableDataNtf`. -/
def GW_CS_GET_SYSTEMTABLE_DATA_NTF : ApiCommand :=
  { id := 0x0102, req := some 0x0100,
    decode := some fun data =>
      (decodeGwCsGetSystemtableDataNtf data).map (fun r => Payload.sysEntries r.1) }

def GW_COMMAND_SEND_REQ : ApiCommand := { id := 0x0300, ntf := true, session := true }

/-- Note: in the source this confirmation has no `req` field; its session
is resolved through the `sessionId` of the decoded payload. -/
def GW_COMMAND_SEND_CFM : ApiCommand :=
  { id := 0x0301,
    decode := some fun data => (decodeSessionStatus data).map Payload.sessionRef }

def GW_SESSION_FINISHED_NTF : ApiCommand :=
  { id := 0x0304, sessionDone := true,
    decode := some fun data => do
      _ ← checkData data 2
      let sid ← readU16BE data 0
      return Payload.sessionRef sid }

def registry : List (String × ApiCommand) :=
  [(("GW_GET_VERSION_REQ"), GW_GET_VERSION_REQ),
   (("GW_GET_VERSION_CFM"), GW_GET_VERSION_CFM),
   (("GW_PASSWORD_ENTER_REQ"), GW_PASSWORD_ENTER_REQ),
   (("GW_PASSWORD_ENTER_CFM"), GW_PASSWORD_ENTER_CFM),
   (("GW_CS_GET_SYSTEMTABLE_DATA_REQ"), GW_CS_GET_SYSTEMTABLE_DATA_REQ),
   (("GW_CS_GET_SYSTEMTABLE_DATA_CFM"), GW_CS_GET_SYSTEMTABLE_DATA_CFM),
   (("GW_CS_GET_SYSTEMTABLE_DATA_NTF"), GW_CS_GET_SYSTEMTABLE_DATA_NTF),
   (("GW_COMMAND_SEND_REQ"), GW_COMMAND_SEND_REQ),
   (("GW_COMMAND_SEND_CFM"), GW_COMMAND_SEND_CFM),
   (("GW_SESSION_FINISHED_NTF"), GW_SESSION_FINISHED_NTF)]

/-- Reverse lookup by numeric id, mirroring `commandNameById` (built from
the catalogue) followed by `commands[cmdName]` in `#receive`. -/
def lookupById (cmd : Nat) : Option (String × ApiCommand) :=
  registry.find? (fun e => e.2.id = cmd)

/-! ## Inbound dispatch, from `#receive` of VeluxClient.js -/

/-- Errors emitted on the `error` event surface by `#receive`. -/
inductive RxError where
  | unknownProtocol
  | checksumMismatch
  | unknownCommandId
  | unexpectedCommand
  | decodeError (message : String)
deriving DecidableEq, Repr

/-- Session-table keys: the request command id for commands without a
session id, the string key `s<session-id>` otherwise. -/
inductive SessKey where
  | byCmd (req : Nat)
  | bySession (sessionId : Nat)
deriving DecidableEq, Repr

/-- Observable effects of one `#receive` call: the errors emitted, whether
the handler crashed on an undefined lookup, the command id read from the
frame, the result of invoking the payload decoder, the notification
event, and the session signals (`error`, accumulator push, `cfm`,
`done`). -/
structure RxTrace where
  errors : List RxError := []
  crashed : Bool := false
  cmdRead : Option Nat := none
  decodeResult : Option (Except String Payload) := none
  notificationCmd : Option (Nat × String) := none
  sessionErrorKey : Option SessKey := none
  pushKey : Option SessKey := none
  cfmKey : Option SessKey := none
  doneKey : Option SessKey := none

/-- The `#receive` method of VeluxClient.js (the version embedded in the
repository README).  A wrong protocol byte emits an error and returns; a
checksum mismatch emits an error but does NOT return (the `return` is
commented out in the source); an unknown command id emits an error and
then crashes on `cmdName.endsWith` (no return in the source either); a
role that is neither `_CFM` nor `_NTF` emits an error and continues.  The
decoder, when present, is invoked with the payload bytes; a decoder throw
is routed to the owning session when one exists and to the error surface
otherwise.  A payload carrying a session id re-resolves the session by
the `s<session-id>` key; the notification event fires unconditionally; a
`_CFM` name signals `cfm` on the session, and `GW_SESSION_FINISHED_NTF`
signals `done`. -/
def receive (live : SessKey → Bool) (buf : List Nat) : RxTrace :=
  if buf.head? ≠ some 0 then { errors := [RxError.unknownProtocol] }
  else
    let csErrors :=
      if buf.getLast? = some (xorList buf.dropLast) then [] else [RxError.checksumMismatch]
    match readU16BE buf 2 with
    | Except.error _ => { errors := csErrors, crashed := true }
    | Except.ok cmd =>
      let data := framePayload buf
      match lookupById cmd with
      | none =>
        { errors := csErrors ++ [RxError.unknownCommandId], crashed := true,
          cmdRead := some cmd }
      | some (cmdName, command) =>
        let roleErrors :=
          if strEndsWith cmdName ("_CFM") || strEndsWith cmdName ("_NTF") then []
          else [RxError.unexpectedCommand]
        let sess0 : Option SessKey :=
          match command.req with
          | some r => if live (SessKey.byCmd r) then some (SessKey.byCmd r) else none
          | none => none
        let decodeResult := command.decode.map (fun f => f data)
        let decodeErrors :=
          match decodeResult, sess0 with
          | some (Except.error e), none => [RxError.decodeError e]
          | _, _ => []
        let sessionErrorKey :=
          match decodeResult, sess0 with
          | some (Except.error _), some k => some k
          | _, _ => none
        let payload :=
          match decodeResult with
          | some (Except.ok pl) => some pl
          | _ => none
        let sess1 :=
          match payload.bind payloadSessionId with
          | some sid =>
            if live (SessKey.bySession sid) then some (SessKey.bySession sid) else none
          | none => sess0
        let pushKey :=
          match payload.bind payloadSessionId, payload.bind payloadNodeId with
          | some _, some _ => sess1
          | _, _ => none
        { errors := csErrors ++ roleErrors ++ decodeErrors,
          crashed := false,
          cmdRead := some cmd,
          decodeResult := decodeResult,
          notificationCmd := some (cmd, cmdName),
          sessionErrorKey := sessionErrorKey,
          pushKey := pushKey,
          cfmKey := if strEndsWith cmdName ("_CFM") then sess1 else none,
          doneKey := if cmd = 0x0304 then sess1 else none }

/-! ## Request completion, from `request` of VeluxClient.js -/

/-- Outcome of the completion phase of one `request()` call: whether the
session-table entry was deleted, whether the error was rethrown to the
caller or emitted on the `error` event, and the value `request()`
returns (`none` models `undefined`). -/
structure CompletionView where
  sessionRemoved : Bool
  raisedToCaller : Option String
  emittedOnError : Option String
  returned : Option Payload
deriving DecidableEq, Repr

/-- The try/catch structure at the end of `request` (VeluxClient.js): a
failure while awaiting `cfm` hits the inner catch, which deletes the
session entry and rethrows; the outer catch rethrows for
`GW_PASSWORD_ENTER_REQ` (id 0x3000) and otherwise emits the error, with
`request()` returning `undefined`.  A failure while awaiting `done` (for
`ntf` commands) is only seen by the outer catch, which does not delete
the entry.  On success the entry is deleted and the session result
returned; `streamed` carries the outcome of the notification phase, whose
ok value is the accumulated `session.result`. -/
def requestCompletion (command : ApiCommand) (cfm : Except String Payload)
    (streamed : Except String Payload) : CompletionView :=
  match cfm with
  | Except.error e =>
    if command.id = 0x3000 then
      { sessionRemoved := true, raisedToCaller := some e,
        emittedOnError := none, returned := none }
    else
      { sessionRemoved := true, raisedToCaller := none,
        emittedOnError := some e, returned := none }
  | Except.ok payload =>
    if command.ntf then
      match streamed with
      | Except.error e =>
        if command.id = 0x3000 then
          { sessionRemoved := false, raisedToCaller := some e,
            emittedOnError := none, returned := none }
        else
          { sessionRemoved := false, raisedToCaller := none,
            emittedOnError := some e, returned := none }
      | Except.ok acc =>
        { sessionRemoved := true, raisedToCaller := none,
          emittedOnError := none, returned := some acc }
    else
      { sessionRemoved := true, raisedToCaller := none,
        emittedOnError := none, returned := some payload }

/-! ## GW_PASSWORD_ENTER_REQ encoding and the request record -/

/-- The line terminators that the JavaScript regular expression `/./`
does not match. -/
def lineTerminators : List Char := ['\n', '\r', '\u2028', '\u2029']

/-- The masking statement `params.password = params.password.replace(/./g, '*')`
of `GW_PASSWORD_ENTER_REQ.encode`: every character except a line
terminator becomes an asterisk. -/
def jsDotMask (s : String) : String :=
  String.mk (s.data.map (fun c => if c ∈ lineTerminators then c else '*'))

/-- Standard UTF-8 encoding of one character (RFC 3629). -/
def utf8EncodeChar (c : Char) : List Nat :=
  let n := c.toNat
  if n < 0x80 then [n]
  else if n < 0x800 then
    [0xC0 ||| (n >>> 6), 0x80 ||| (n &&& 0x3F)]
  else if n < 0x10000 then
    [0xE0 ||| (n >>> 12), 0x80 ||| ((n >>> 6) &&& 0x3F), 0x80 ||| (n &&& 0x3F)]
  else
    [0xF0 ||| (n >>> 18), 0x80 ||| ((n >>> 12) &&& 0x3F),
     0x80 ||| ((n >>> 6) &&& 0x3F), 0x80 ||| (n &&& 0x3F)]

/-- UTF-8 bytes of a string, as written by `Buffer.write`. -/
def utf8Bytes (s : String) : List Nat :=
  s.data.flatMap utf8EncodeChar

/-- The `GW_PASSWORD_ENTER_REQ.encode` function of lib/VeluxApi.js: a
zero-filled 32-byte buffer receiving the UTF-8 bytes of the password
(`Buffer.write` stops at the end of the buffer), after which
`params.password` is replaced by its dot-masked form.  Returns the buffer
and the new `params.password`. -/
def encodeGwPasswordEnterReq (password : String) : List Nat × String :=
  let bytes := (utf8Bytes password).take 32
  (bytes ++ List.replicate (32 - bytes.length) 0, jsDotMask password)

/-- The fields of the `VeluxRequest` record relevant to
`GW_PASSWORD_ENTER_REQ`. -/
structure PasswordRequestRecord where
  cmd : Nat
  cmdName : String
  paramsPassword : String
  data : List Nat
deriving DecidableEq, Repr

/-- The order of operations in `request` (VeluxClient.js) for
`GW_PASSWORD_ENTER_REQ`: `command.encode?.(params)` runs first — masking
`params.password` — and only then is the `VeluxRequest` record created
and emitted on the `request` event, so the record carries the masked
`params.password` together with the encoded cleartext bytes in `data`. -/
def requestGwPasswordEnter (password : String) : PasswordRequestRecord :=
  let enc := encodeGwPasswordEnterReq password
  { cmd := 0x3000, cmdName := ("GW_PASSWORD_ENTER_REQ"),
    paramsPassword := enc.2, data := enc.1 }

/-! ## Send serialization, from `request` of VeluxClient.js

Cooperative small-step model of two concurrent `request()` calls on the
same decoder-less non-session command (the same session key, e.g. two
calls of `GW_GET_VERSION_REQ`).  Code between two `await` points runs
atomically in the single-threaded event loop; each transition below is
one such segment:
  * from `waitSlot`, the atomic segment evaluates
    `while (this._sessions[sessionKey] != null)`; if the slot is free it
    registers the session and immediately evaluates `while (this._busy)`
    in the same segment — acquiring the mutex, emitting the frame and
    starting the write when `_busy` is false, else suspending in the busy
    loop;
  * from `waitBusy`, a segment that sees `_busy == false` sets it, builds
    and writes the frame, and suspends at `await this._client.write`;
  * from `awaitWrite`, the write completes and the caller suspends at
    `await once(session, 'cfm')`;
  * from `awaitCfm`, the confirmation resumes the caller, which clears
    `_busy`, deletes its session entry and returns. -/

inductive CallerPC where
  | waitSlot
  | waitBusy
  | awaitWrite
  | awaitCfm
  | finished
deriving DecidableEq, Repr

structure TwoCallers where
  pc1 : CallerPC
  pc2 : CallerPC
  busy : Bool
  slot : Bool
deriving DecidableEq, Repr

def initState : TwoCallers :=
  { pc1 := CallerPC.waitSlot, pc2 := CallerPC.waitSlot, busy := false, slot := false }

inductive SendStep : TwoCallers → TwoCallers → Prop where
  | register1free : ∀ s, s.pc1 = CallerPC.waitSlot → s.slot = false → s.busy = false →
      SendStep s { s with pc1 := CallerPC.awaitWrite, slot := true, busy := true }
  | register1busy : ∀ s, s.pc1 = CallerPC.waitSlot → s.slot = false → s.busy = true →
      SendStep s { s with pc1 := CallerPC.waitBusy, slot := true }
  | acquire1 : ∀ s, s.pc1 = CallerPC.waitBusy → s.busy = false →
      SendStep s { s with pc1 := CallerPC.awaitWrite, busy := true }
  | written1 : ∀ s, s.pc1 = CallerPC.awaitWrite →
      SendStep s { s with pc1 := CallerPC.awaitCfm }
  | confirm1 : ∀ s, s.pc1 = CallerPC.awaitCfm →
      SendStep s { s with pc1 := CallerPC.finished, busy := false, slot := false }
  | register2free : ∀ s, s.pc2 = CallerPC.waitSlot → s.slot = false → s.busy = false →
      SendStep s { s with pc2 := CallerPC.awaitWrite, slot := true, busy := true }
  | register2busy : ∀ s, s.pc2 = CallerPC.waitSlot → s.slot = false → s.busy = true →
      SendStep s { s with pc2 := CallerPC.waitBusy, slot := true }
  | acquire2 : ∀ s, s.pc2 = CallerPC.waitBusy → s.busy = false →
      SendStep s { s with pc2 := CallerPC.awaitWrite, busy := true }
  | written2 : ∀ s, s.pc2 = CallerPC.awaitWrite →
      SendStep s { s with pc2 := CallerPC.awaitCfm }
  | confirm2 : ∀ s, s.pc2 = CallerPC.awaitCfm →
      SendStep s { s with pc2 := CallerPC.finished, busy := false, slot := false }

inductive ReachableState : TwoCallers → Prop where
  | init : ReachableState initState
  | step : ∀ s t, ReachableState s → SendStep s t → ReachableState t

/-- The writing phase of the pipeline: the caller holds `_busy` (from
acquisition, through the write of its frame, until the segment that
resumes after `cfm` clears it). -/
def inWritingPhase : CallerPC → Bool
  | CallerPC.awaitWrite => true
  | CallerPC.awaitCfm => true
  | _ => false

/-- The caller holds the session-table slot. -/
def holdsSlot : CallerPC → Bool
  | CallerPC.waitBusy => true
  | CallerPC.awaitWrite => true
  | CallerPC.awaitCfm => true
  | _ => false

/-- The caller has already written its frame to the byte stream (the
write is issued in the transition that enters `awaitWrite`). -/
def frameSent : CallerPC → Bool
  | CallerPC.awaitWrite => true
  | CallerPC.awaitCfm => true
  | CallerPC.finished => true
  | _ => false

/-- Inductive invariant: `_busy` is held exactly by a caller in the
writing phase, the session slot exactly by a registered caller, and at
most one caller is registered at a time. -/
def MutexInv (s : TwoCallers) : Bool :=
  (s.busy == (inWritingPhase s.pc1 || inWritingPhase s.pc2)) &&
  (s.slot == (holdsSlot s.pc1 || holdsSlot s.pc2)) &&
  !(holdsSlot s.pc1 && holdsSlot s.pc2)

end Velux

/-! ## Theorems -/

namespace Velux

theorem xorList_append (l : List Nat) (b : Nat) :
    xorList (l ++ [b]) = Nat.xor (xorList l) b := by
  simp [xorList, List.foldl_append]

theorem xorList_append_zero (l : List Nat) :
    xorList (l ++ [0]) = xorList l := by
  unfold xorList
  rw [List.foldl_append]
  exact Nat.xor_zero _

theorem dropLast_concat_list (l : List Nat) (b : Nat) :
    (l ++ [b]).dropLast = l := by
  simp

/-- C1: SLIP-decoding the SLIP-encoding of `[0xC0]` does not return
`[0xC0]`: the decoder writes the un-escaped byte into the input buffer
(`buf[o]`) instead of the output buffer (`out[o]`), so the corresponding
output byte keeps whatever `Buffer.allocUnsafe` left there (here modelled
as 0).  The round-trip `slip_decode(slip_encode(b)) == b` therefore fails
for every buffer containing an END or ESC byte. -/
theorem slip_roundtrip_fails_on_escaped_byte :
    slipDecode (fun _ => 0) (slipEncode [0xC0]) = some [0x00] ∧
      slipDecode (fun _ => 0) (slipEncode [0xC0]) ≠ some [0xC0] := by
  constructor <;> decide

/-- C2: for every command id below 0x10000 and payload of at most 250
bytes, the encoded frame is `[0x00, |p|+3, cmd_hi, cmd_lo, p…, c]` with `c`
the XOR of every preceding byte; decoding recovers the command id and the
payload, and the last byte equals the XOR of the first `len − 1` bytes. -/
theorem frame_roundtrip (cmd : Nat) (p : List Nat)
    (hcmd : cmd < 0x10000) (hp : p.length ≤ 250) :
    frameEncode cmd p =
        ([0x00, p.length + 3, cmd / 0x100, cmd % 0x100] ++ p) ++
          [xorList ([0x00, p.length + 3, cmd / 0x100, cmd % 0x100] ++ p)] ∧
      frameCmd (frameEncode cmd p) = some cmd ∧
      framePayload (frameEncode cmd p) = p ∧
      frameChecksumOk (frameEncode cmd p) ∧
      (frameEncode cmd p).length = p.length + 5 := by
  have hdiv : cmd / 0x100 % 0x100 = cmd / 0x100 := by
    have : cmd / 0x100 < 0x100 := by omega
    exact Nat.mod_eq_of_lt this
  have e1 : (([0, p.length + 3, cmd / 0x100, cmd % 0x100] ++ p) ++ [0]).dropLast =
      [0, p.length + 3, cmd / 0x100, cmd % 0x100] ++ p :=
    dropLast_concat_list _ _
  have henc : frameEncode cmd p =
      ([0x00, p.length + 3, cmd / 0x100, cmd % 0x100] ++ p) ++
        [xorList ([0x00, p.length + 3, cmd / 0x100, cmd % 0x100] ++ p)] := by
    show (([0, p.length + 3, cmd / 0x100 % 0x100, cmd % 0x100] ++ p) ++ [0]).dropLast ++
        [xorList (([0, p.length + 3, cmd / 0x100 % 0x100, cmd % 0x100] ++ p) ++ [0])] =
      ([0x00, p.length + 3, cmd / 0x100, cmd % 0x100] ++ p) ++
        [xorList ([0x00, p.length + 3, cmd / 0x100, cmd % 0x100] ++ p)]
    rw [hdiv, xorList_append_zero, e1]
  refine ⟨henc, ?_, ?_, ?_, ?_⟩
  · rw [henc]
    simp [frameCmd]
    try omega
  · rw [henc]
    unfold framePayload
    rw [show List.drop 4 (([0x00, p.length + 3, cmd / 0x100, cmd % 0x100] ++ p) ++
        [xorList ([0x00, p.length + 3, cmd / 0x100, cmd % 0x100] ++ p)]) =
      p ++ [xorList ([0x00, p.length + 3, cmd / 0x100, cmd % 0x100] ++ p)] from by simp]
    exact dropLast_concat_list _ _
  · rw [henc]
    unfold frameChecksumOk
    rw [List.getLast?_concat, dropLast_concat_list]
  · rw [henc]
    simp
    try omega

/-- C2 witness: the round-trip theorem at command id 0x0300 with the
two-byte payload [0x00, 0x42]. -/
theorem frame_roundtrip_witness :
    frameCmd (frameEncode 0x0300 [0x00, 0x42]) = some 0x0300 ∧
      framePayload (frameEncode 0x0300 [0x00, 0x42]) = [0x00, 0x42] := by
  have h := frame_roundtrip 0x0300 [0x00, 0x42] (by decide) (by decide)
  exact ⟨h.2.1, h.2.2.1⟩

/-- C9: the position decoder maps values up to 0xC800 to
`round(v / 0x0200)` percent, a value in [0..100]; values strictly between
0xC800 and 0xD000 to the relative percentage offset
`round((v − 0xC800) / 10) − 100`; the sentinels 0xD100/0xD200/0xD300/0xD400
to target/current/default/ignore and 0xF7FF to unknown.  The encoder maps
a percentage `p` to `p * 0x0200` (so decoding inverts it on [0..100]) and
recognises the four named sentinels. -/
theorem position_codec_spec :
    (∀ v, v ≤ 0xC800 →
        decodePosition v = PosValue.num ((v + 0x100) / 0x200) ∧
          (v + 0x100) / 0x200 ≤ 100) ∧
    (∀ v, 0xC800 < v → v < 0xD000 →
        decodePosition v = PosValue.str ("relative " ++
          toString ((((v - 0xC800 + 5) / 10 : Nat) : Int) - 100))) ∧
    (decodePosition 0xD100 = PosValue.str ("target") ∧
      decodePosition 0xD200 = PosValue.str ("current") ∧
      decodePosition 0xD300 = PosValue.str ("default") ∧
      decodePosition 0xD400 = PosValue.str ("ignore") ∧
      decodePosition 0xF7FF = PosValue.str ("unknown")) ∧
    (∀ n, encodePosition (PosParam.num n) = some (n * 0x200)) ∧
    (encodePosition (PosParam.str ("target")) = some 0xD100 ∧
      encodePosition (PosParam.str ("current")) = some 0xD200 ∧
      encodePosition (PosParam.str ("default")) = some 0xD300 ∧
      encodePosition (PosParam.str ("ignore")) = some 0xD400) ∧
    (∀ p, p ≤ 100 → decodePosition (p * 0x200) = PosValue.num p) := by
  refine ⟨?_, ?_, ?_, ?_, ?_, ?_⟩
  · intro v hv
    unfold decodePosition
    rw [if_neg (by omega), if_neg (by omega), if_neg (by omega),
      if_neg (by omega), if_neg (by omega), if_pos hv]
    exact ⟨rfl, by omega⟩
  · intro v hv1 hv2
    unfold decodePosition
    rw [if_neg (by omega), if_neg (by omega), if_neg (by omega),
      if_neg (by omega), if_neg (by omega), if_neg (by omega)]
  · exact ⟨rfl, rfl, rfl, rfl, rfl⟩
  · intro n
    rfl
  · refine ⟨?_, ?_, ?_, ?_⟩ <;> decide
  · intro p hp
    unfold decodePosition
    rw [if_neg (by omega), if_neg (by omega), if_neg (by omega),
      if_neg (by omega), if_neg (by omega), if_pos (by omega)]
    have : (p * 0x200 + 0x100) / 0x200 = p := by omega
    rw [this]

/-- C9 witness: the position codec theorem instantiated at 0x0200 (one
percent), at 0xC900 (a relative value), and at the encoded percentage
100. -/
theorem position_codec_spec_witness :
    (decodePosition 0x0200 = PosValue.num 1 ∧ (0x0200 + 0x100) / 0x200 ≤ 100) ∧
      decodePosition 0xC900 = PosValue.str ("relative " ++
        toString ((((0xC900 - 0xC800 + 5) / 10 : Nat) : Int) - 100)) ∧
      decodePosition (100 * 0x200) = PosValue.num 100 := by
  refine ⟨?_, ?_, ?_⟩
  · have h := position_codec_spec.1 0x0200 (by decide)
    simpa using h
  · exact position_codec_spec.2.1 0xC900 (by decide) (by decide)
  · exact position_codec_spec.2.2.2.2.2 100 (by decide)

/-- C8 counterexample: on the confirmation bytes 10…18 the decoder
produces the software version "11.12.13.14" — the dot-join of bytes 1–4 —
not the six-component join "10.11.12.13.14.15" of bytes 0–5 that the
claim predicts.  Hardware version and product bytes are as claimed. -/
theorem gw_get_version_cfm_counterexample :
    decodeGwGetVersionCfm [10, 11, 12, 13, 14, 15, 16, 17, 18] =
        Except.ok { softwareVersion := ("11.12.13.14"), hardwareVersion := 16,
                    productGroup := 17, productType := 18 } ∧
      ("11.12.13.14" : String) ≠ ("10.11.12.13.14.15") := by
  refine ⟨by rfl, by decide⟩

/-- C8 amended: the GW_GET_VERSION_CFM decoder forms the software version
from confirmation bytes 1 through 4 as four dot-joined components
`b1.b2.b3.b4`; byte 6 is the hardware version and bytes 7 and 8 the
product group and product type (byte 0 and byte 5 are unused). -/
theorem gw_get_version_cfm_fields (b0 b1 b2 b3 b4 b5 b6 b7 b8 : Nat) :
    decodeGwGetVersionCfm [b0, b1, b2, b3, b4, b5, b6, b7, b8] =
      Except.ok { softwareVersion :=
                    String.intercalate (".")
                      [toString b1, toString b2, toString b3, toString b4],
                  hardwareVersion := b6, productGroup := b7,
                  productType := b8 } := rfl

/-- C4 counterexample: with the stored counter at 0xFFFE (so the
previously assigned session id was 0xFFFE), the next request is assigned
session id 0x0000 by `++this._sessionId % 0xFFFF`, while
`(0xFFFE + 1) mod 0x10000` — the id the claim predicts — is 0xFFFF. -/
theorem session_id_mod_counterexample :
    assignedSessionId 0xFFFE = 0x0000 ∧
      (0xFFFE + 1) % 0x10000 = 0xFFFF ∧ (0x0000 : Nat) ≠ 0xFFFF := by
  decide

/-- C4 amended: session ids are assigned as `(counter + 1) mod 0xFFFF`
(65535, not 0x10000), so the id 0xFFFF is never assigned and the id after
0xFFFE is 0x0000; with the previous id 0x0041 the next
GW_COMMAND_SEND_REQ (a session-bearing command) carries 0x0042 big-endian
in the first two payload bytes on the wire. -/
theorem session_id_assignment :
    (∀ s, assignedSessionId s = (s + 1) % 0xFFFF) ∧
      (∀ s, assignedSessionId s < 0xFFFF) ∧
      assignedSessionId 0x0041 = 0x0042 ∧
      GW_COMMAND_SEND_REQ.session = true ∧
      (encodeGwCommandSendReq (assignedSessionId 0x0041) (PosParam.num 0)
            [2, 3]).map (fun l => l.take 2) = some [0x00, 0x42] := by
  refine ⟨fun s => rfl, fun s => Nat.mod_lt _ (by decide), by decide, rfl, by decide⟩

/-- C7: on a well-formed single-entry GW_CS_GET_SYSTEMTABLE_DATA_NTF
payload (13 bytes: count 1, one 11-byte entry, remaining-entries 0) the
decoder fails with a RangeError instead of returning the entry: the
actuator type is read with `data.readUInt16BE(11 * 1 + 5)` — offset 16
for every entry — which lies past the end of a 13-byte buffer. -/
theorem systemtable_single_entry_crashes :
    decodeGwCsGetSystemtableDataNtf
        [1, 5, 0, 0, 1, 0, 0x40, 0, 1, 0, 0, 2, 0] =
      Except.error ("offset out of range") := by
  rfl

/-- C6: evaluation of the request-completion logic.  A failure in the
notification phase (here the stream timeout of a
GW_CS_GET_SYSTEMTABLE_DATA_REQ) is emitted on the error event and makes
`request()` return undefined, but the session-table entry is NOT removed
— the deletion runs only in the cfm-phase catch and on the success path.
A cfm-phase failure does remove the entry, and for GW_PASSWORD_ENTER_REQ
the error is raised to the caller instead of being emitted. -/
theorem stream_failure_leaves_session_entry :
    requestCompletion GW_CS_GET_SYSTEMTABLE_DATA_REQ (Except.ok Payload.undef)
        (Except.error ("NTF timout")) =
      { sessionRemoved := false, raisedToCaller := none,
        emittedOnError := some ("NTF timout"), returned := none } ∧
    requestCompletion GW_CS_GET_SYSTEMTABLE_DATA_REQ
        (Except.error ("CFM timeout")) (Except.ok (Payload.sysEntries [])) =
      { sessionRemoved := true, raisedToCaller := none,
        emittedOnError := some ("CFM timeout"), returned := none } ∧
    requestCompletion GW_PASSWORD_ENTER_REQ (Except.error ("invalid password"))
        (Except.ok Payload.undef) =
      { sessionRemoved := true, raisedToCaller := some ("invalid password"),
        emittedOnError := none, returned := none } := by
  refine ⟨rfl, rfl, rfl⟩

/-- C10 counterexample: for the password "a\nb" the request record's
`params.password` is "*\n*" — the JavaScript regular expression `/./`
does not match the line terminator, so the mask is not three asterisks —
and the record's `data` field still begins with the cleartext UTF-8 bytes
0x61 0x0A 0x62 of the password, so the cleartext does appear in the
record emitted on the `request` event. -/
theorem password_mask_counterexample :
    (requestGwPasswordEnter ("a\nb")).paramsPassword = ("*\n*") ∧
      ("*\n*" : String) ≠ ("***") ∧
      (requestGwPasswordEnter ("a\nb")).data.take 3 = [0x61, 0x0A, 0x62] := by
  refine ⟨by decide, by decide, by decide⟩

/-- C10 amended: the encoder returns the 32-byte zero-padded buffer
holding the UTF-8 bytes of the password, and before the request record is
created and emitted, `params.password` is replaced by the password with
every character that is not a line terminator turned into an asterisk (so
all asterisks whenever the password has no line terminator); the record
nevertheless carries the cleartext bytes in its `data` field. -/
theorem password_request_record (p : String)
    (hlen : (utf8Bytes p).length ≤ 32)
    (hchar : ∀ c ∈ p.data, c ∉ lineTerminators) :
    (requestGwPasswordEnter p).paramsPassword =
        String.mk (List.replicate p.data.length '*') ∧
      (requestGwPasswordEnter p).data =
        utf8Bytes p ++ List.replicate (32 - (utf8Bytes p).length) 0 ∧
      (requestGwPasswordEnter p).data.length = 32 ∧
      (requestGwPasswordEnter p).cmd = 0x3000 := by
  have hmap : ∀ l : List Char, (∀ c ∈ l, c ∉ lineTerminators) →
      l.map (fun c => if c ∈ lineTerminators then c else '*') =
        List.replicate l.length '*' := by
    intro l
    induction l with
    | nil => intro _; rfl
    | cons a t ih =>
      intro h
      simp only [List.map_cons, List.length_cons, List.replicate_succ]
      rw [if_neg (h a (by simp)), ih (fun c hc => h c (by simp [hc]))]
  have hdata : (requestGwPasswordEnter p).data =
      utf8Bytes p ++ List.replicate (32 - (utf8Bytes p).length) 0 := by
    show (utf8Bytes p).take 32 ++
        List.replicate (32 - ((utf8Bytes p).take 32).length) 0 = _
    rw [List.take_of_length_le hlen]
  refine ⟨?_, hdata, ?_, rfl⟩
  · show String.mk (p.data.map (fun c => if c ∈ lineTerminators then c else '*')) = _
    rw [hmap p.data hchar]
  · rw [hdata]
    simp only [List.length_append, List.length_replicate]
    omega

/-- C10 amended witness: the record for password "abc". -/
theorem password_request_record_witness :
    (requestGwPasswordEnter ("abc")).paramsPassword =
        String.mk (List.replicate ("abc" : String).data.length '*') ∧
      (requestGwPasswordEnter ("abc")).data =
        utf8Bytes ("abc") ++ List.replicate (32 - (utf8Bytes ("abc")).length) 0 ∧
      (requestGwPasswordEnter ("abc")).data.length = 32 ∧
      (requestGwPasswordEnter ("abc")).cmd = 0x3000 :=
  password_request_record ("abc") (by decide) (by decide)

theorem mutex_inv_step :
    ∀ s t : TwoCallers, MutexInv s = true → SendStep s t → MutexInv t = true := by
  rintro ⟨p1, p2, b, sl⟩ t h hst
  cases hst with
  | register1free hpc hsl hb =>
    dsimp only at hpc hsl hb
    subst hpc; subst hsl; subst hb
    revert h; cases p2 <;> decide
  | register1busy hpc hsl hb =>
    dsimp only at hpc hsl hb
    subst hpc; subst hsl; subst hb
    revert h; cases p2 <;> decide
  | acquire1 hpc hb =>
    dsimp only at hpc hb
    subst hpc; subst hb
    revert h; cases p2 <;> cases sl <;> decide
  | written1 hpc =>
    dsimp only at hpc
    subst hpc
    revert h; cases p2 <;> cases b <;> cases sl <;> decide
  | confirm1 hpc =>
    dsimp only at hpc
    subst hpc
    revert h; cases p2 <;> cases b <;> cases sl <;> decide
  | register2free hpc hsl hb =>
    dsimp only at hpc hsl hb
    subst hpc; subst hsl; subst hb
    revert h; cases p1 <;> decide
  | register2busy hpc hsl hb =>
    dsimp only at hpc hsl hb
    subst hpc; subst hsl; subst hb
    revert h; cases p1 <;> decide
  | acquire2 hpc hb =>
    dsimp only at hpc hb
    subst hpc; subst hb
    revert h; cases p1 <;> cases sl <;> decide
  | written2 hpc =>
    dsimp only at hpc
    subst hpc
    revert h; cases p1 <;> cases b <;> cases sl <;> decide
  | confirm2 hpc =>
    dsimp only at hpc
    subst hpc
    revert h; cases p1 <;> cases b <;> cases sl <;> decide

theorem mutex_inv_reachable : ∀ s, ReachableState s → MutexInv s = true := by
  intro s h
  induction h with
  | init => decide
  | step s t _ hst ih => exact mutex_inv_step s t ih hst

/-- C5: in every reachable state of the cooperative two-caller model of
`request()` on the same non-session command, at most one caller is in the
writing phase (holding `_busy`), and a caller can only be writing while
the other caller — if it has already issued its frame — has completed its
request (its session entry is deleted on completion, which is what lets
the other caller register).  Hence the second caller's frame reaches the
byte stream only after the first caller's request has completed. -/
theorem send_serialization (s : TwoCallers) (h : ReachableState s) :
    (¬(inWritingPhase s.pc1 = true ∧ inWritingPhase s.pc2 = true)) ∧
      (frameSent s.pc1 = true → inWritingPhase s.pc2 = true →
        s.pc1 = CallerPC.finished) ∧
      (frameSent s.pc2 = true → inWritingPhase s.pc1 = true →
        s.pc2 = CallerPC.finished) := by
  have hinv := mutex_inv_reachable s h
  obtain ⟨p1, p2, b, sl⟩ := s
  revert hinv
  cases p1 <;> cases p2 <;> cases b <;> cases sl <;> decide

/-- C5 witness: the serialization theorem at the reachable state where
caller 1 has registered, written its frame and awaits its confirmation
while caller 2 still waits for the session slot. -/
theorem send_serialization_witness :
    ¬(inWritingPhase CallerPC.awaitCfm = true ∧
        inWritingPhase CallerPC.waitSlot = true) := by
  have h1 : SendStep initState
      { pc1 := CallerPC.awaitWrite, pc2 := CallerPC.waitSlot,
        busy := true, slot := true } :=
    SendStep.register1free initState rfl rfl rfl
  have h2 : SendStep
      { pc1 := CallerPC.awaitWrite, pc2 := CallerPC.waitSlot,
        busy := true, slot := true }
      { pc1 := CallerPC.awaitCfm, pc2 := CallerPC.waitSlot,
        busy := true, slot := true } :=
    SendStep.written1 _ rfl
  have hr : ReachableState
      { pc1 := CallerPC.awaitCfm, pc2 := CallerPC.waitSlot,
        busy := true, slot := true } :=
    ReachableState.step _ _ (ReachableState.step _ _ ReachableState.init h1) h2
  exact (send_serialization _ hr).1

/-- C3: a frame with the correct protocol byte whose last byte differs
from the XOR of the preceding bytes makes `#receive` emit the
checksum-mismatch error but continue: the command id is still read, the
registered decoder is still invoked on the payload bytes, and the
notification event still fires with that command — the `return` after the
mismatch is commented out in the source. -/
theorem checksum_mismatch_continues (live : SessKey → Bool) (buf : List Nat)
    (cmd : Nat) (cmdName : String) (command : ApiCommand)
    (f : List Nat → Except String Payload)
    (hproto : buf.head? = some 0)
    (hcs : buf.getLast? ≠ some (xorList buf.dropLast))
    (hcmd : readU16BE buf 2 = Except.ok cmd)
    (hreg : lookupById cmd = some (cmdName, command))
    (hrole : (strEndsWith cmdName ("_CFM") || strEndsWith cmdName ("_NTF")) = true)
    (hdec : command.decode = some f) :
    RxError.checksumMismatch ∈ (receive live buf).errors ∧
      (receive live buf).crashed = false ∧
      (receive live buf).cmdRead = some cmd ∧
      (receive live buf).decodeResult = some (f (framePayload buf)) ∧
      (receive live buf).notificationCmd = some (cmd, cmdName) := by
  unfold receive
  rw [if_neg (by simp [hproto]), if_neg hcs, hcmd]
  dsimp only
  rw [hreg]
  dsimp only
  rw [hdec, hrole]
  refine ⟨by simp, ?_, ?_, ?_, ?_⟩ <;> simp

/-- C3 witness: the corrupted GW_GET_VERSION_CFM frame
`00 0C 00 09 02 00 00 47 00 00 01 0E 03 4D` (true checksum 0x4C). -/
theorem checksum_mismatch_continues_witness :
    RxError.checksumMismatch ∈
        (receive (fun _ => false)
          [0, 12, 0, 9, 2, 0, 0, 71, 0, 0, 1, 14, 3, 77]).errors ∧
      (receive (fun _ => false)
          [0, 12, 0, 9, 2, 0, 0, 71, 0, 0, 1, 14, 3, 77]).cmdRead = some 9 := by
  have h := checksum_mismatch_continues (fun _ => false)
    [0, 12, 0, 9, 2, 0, 0, 71, 0, 0, 1, 14, 3, 77] 9 ("GW_GET_VERSION_CFM")
    GW_GET_VERSION_CFM (fun data => (decodeGwGetVersionCfm data).map Payload.version)
    rfl (by decide) rfl rfl (by decide) rfl
  exact ⟨h.1, h.2.2.1⟩

end Velux
